import Mathlib

/-!
# Verification of the `Brick` reactive state container (src/brick/Brick.ts)

A `Brick<T>` holds one current value inside a `BehaviorSubject`, plus two
registries: action reducers and side-effect callbacks, both keyed by string
names.  This development shallowly embeds the class and its observable
behaviour:

* JavaScript runtime values are modelled by `JSVal`.  Numbers are modelled as
  integers (every numeric value appearing in the specification is an integer);
  only plain objects are `instanceof Object` in the model.  Object identity is
  not modelled, so the default `===` comparator (`jsStrictEq`) is only ever
  instantiated at primitive values, where `===` is value equality.
* Mutation of the `BehaviorSubject`, calls to the devtool adapter's `send`,
  and invocations of side-effect callbacks are recorded in an `Event` trace.
  Side-effect callback bodies are opaque (they return `void` and the container
  never inspects them), so a registered effect is represented by an identifier
  and its invocation by an `Event.effectCall` carrying that identifier and the
  payload.  When the devtool adapter is absent, `?.send` drops the call; the
  trace records the calls the `Brick` makes, i.e. the adapter-present run.
* Reducers are modelled as functions `JSVal → JSVal → JSVal`, exactly as the
  action registry stores them.
* `registerAction`/`registerSideEffect` throw; a call returns a `StepResult`
  holding the post-call `Brick`, the emitted events, and `some errorMessage`
  when the call threw (the `Brick` component is then the unchanged receiver,
  since the methods throw before mutating).
-/

/-- A JavaScript runtime value, as far as the `Brick` code discriminates them:
numbers, strings, booleans, `null`, `undefined`, and plain objects
(association lists of fields).  Only `vobj` values satisfy
`instanceof Object`. -/
inductive JSVal where
  | vnum : Int → JSVal
  | vstr : String → JSVal
  | vbool : Bool → JSVal
  | vnull : JSVal
  | vundefined : JSVal
  | vobj : List (String × JSVal) → JSVal

mutual

/-- Structural equality test on `JSVal`. -/
def JSVal.beq : JSVal → JSVal → Bool
  | .vnum a, .vnum b => a == b
  | .vstr a, .vstr b => a == b
  | .vbool a, .vbool b => a == b
  | .vnull, .vnull => true
  | .vundefined, .vundefined => true
  | .vobj fs, .vobj gs => JSVal.beqFields fs gs
  | _, _ => false

/-- Structural equality test on object field lists. -/
def JSVal.beqFields : List (String × JSVal) → List (String × JSVal) → Bool
  | [], [] => true
  | (k, v) :: fs, (l, w) :: gs =>
      k == l && JSVal.beq v w && JSVal.beqFields fs gs
  | _, _ => false

end

instance : BEq JSVal := ⟨JSVal.beq⟩

/-- The test `v instanceof Object` for the values of the model: true exactly for plain
objects (line 38 of Brick.ts). -/
def jsInstanceOfObject : JSVal → Bool
  | .vobj _ => true
  | _ => false

/-- The `===` comparator, `distinctUntilChanged`'s default.  On primitives
`===` is value equality; the model does not track object identity, so this
default is only used at primitive instantiations. -/
def jsStrictEq (a b : JSVal) : Bool := JSVal.beq a b

/-- Reads field `k` of an object (`undefined` when absent or not an object). -/
def objGet (v : JSVal) (k : String) : JSVal :=
  match v with
  | .vobj fields => (List.lookup k fields).getD .vundefined
  | _ => .vundefined

/-- JavaScript `+` restricted to the numeric case, the only one the
specification's scenarios exercise. -/
def jsAdd : JSVal → JSVal → JSVal
  | .vnum a, .vnum b => .vnum (a + b)
  | _, _ => .vundefined

/-- The argument of `setData`: either a direct value or a transformer
function.  At runtime the union `T | ((state: T) => T)` is discriminated by
`instanceof Function` (a function value is `instanceof Function`, a direct
value is not), which this sum type reflects. -/
inductive SetDataArg where
  | value : JSVal → SetDataArg
  | transform : (JSVal → JSVal) → SetDataArg

/-- An observable step of a `Brick` method:
`streamEmit v` is `subject.next(v)` (delivered to every current subscriber),
`devtoolSend label payload` is `devtoolWrapper.send(label, payload)`, and
`effectCall e p` is the invocation of the side-effect callback registered
under identifier `e` with payload `p`. -/
inductive Event where
  | streamEmit : JSVal → Event
  | devtoolSend : String → JSVal → Event
  | effectCall : Nat → JSVal → Event

/-- The state of a `Brick` instance: the `BehaviorSubject`'s current value and
the two registries, modelled as association lists with `Map` semantics. -/
structure Brick where
  subjectValue : JSVal
  actions : List (String × (JSVal → JSVal → JSVal))
  sideEffects : List (String × Nat)

/-- Models `Map.prototype.has`. -/
def mapHas (m : List (String × α)) (k : String) : Bool :=
  (List.lookup k m).isSome

/-- Models `Map.prototype.set`: replaces the entry when the key is present, appends
otherwise. -/
def mapSet (m : List (String × α)) (k : String) (v : α) : List (String × α) :=
  if mapHas m k then
    m.map (fun p => if p.1 == k then (k, v) else p)
  else
    m ++ [(k, v)]

/-- The result of one `Brick` method call: the post-call instance, the events
it produced in order, and the thrown error's message, if any. -/
structure StepResult where
  brick : Brick
  events : List Event
  error : Option String

/-- Constructor `new Brick(initialData)` / `Brick.createBrick`: seeds the subject with the
initial value; both registries start empty. -/
def Brick.createBrick (initialData : JSVal) : Brick :=
  ⟨initialData, [], []⟩

/-- Getter `snapshot`: returns `this.subject.value`. -/
def Brick.snapshot (b : Brick) : JSVal := b.subjectValue

/-- Method `setData` (Brick.ts lines 31-43): a transformer is applied to the current
value and the result installed unconditionally (`next`, then devtool `send`);
a direct value is installed only when it is `instanceof Object` (devtool
`send`, then `next`); otherwise the call falls through and does nothing. -/
def Brick.setData (b : Brick) (setDataArg : SetDataArg) (action : String) :
    StepResult :=
  match setDataArg with
  | .transform f =>
      let newState := f b.subjectValue
      ⟨{ b with subjectValue := newState },
       [.streamEmit newState, .devtoolSend action newState], none⟩
  | .value v =>
      if jsInstanceOfObject v then
        ⟨{ b with subjectValue := v },
         [.devtoolSend action v, .streamEmit v], none⟩
      else
        ⟨b, [], none⟩

/-- Method `registerAction` (lines 84-89): throws on a duplicate name, otherwise
stores the wrapped reducer. -/
def Brick.registerAction (b : Brick) (name : String)
    (reducer : JSVal → JSVal → JSVal) : StepResult :=
  if mapHas b.actions name then
    ⟨b, [],
     some ("Action with the name \"" ++ name ++ "\" is already registered.")⟩
  else
    ⟨{ b with actions :=
        mapSet b.actions name (fun state payload => reducer state payload) },
     [], none⟩

/-- Method `registerSideEffect` (lines 101-106): throws on a duplicate name,
otherwise stores the effect (an opaque callback, kept as its identifier). -/
def Brick.registerSideEffect (b : Brick) (name : String) (effect : Nat) :
    StepResult :=
  if mapHas b.sideEffects name then
    ⟨b, [],
     some ("Side effect with the name \"" ++ name ++
           "\" is already registered.")⟩
  else
    ⟨{ b with sideEffects := mapSet b.sideEffects name effect }, [], none⟩

/-- The tagged record the side-effect branch of `dispatch` reports to the
devtool (line 123). -/
def sideEffectRecord (payload : JSVal) : JSVal :=
  .vobj [("type", .vstr "sideEffect"), ("payload", payload)]

/-- Method `dispatch` (lines 115-125): looks the name up in both registries; a
found reducer runs through `setData` with a transformer and the name as the
devtool label; a found side effect is then invoked with the payload, followed
by a devtool report of the tagged record. -/
def Brick.dispatch (b : Brick) (action : String) (payload : JSVal) :
    StepResult :=
  let reducer := List.lookup action b.actions
  let sideEffect := List.lookup action b.sideEffects
  let afterAction : StepResult :=
    match reducer with
    | some red => b.setData (.transform (fun state => red state payload)) action
    | none => ⟨b, [], none⟩
  match sideEffect with
  | some eff =>
      ⟨afterAction.brick,
       afterAction.events ++
         [.effectCall eff payload,
          .devtoolSend action (sideEffectRecord payload)],
       afterAction.error⟩
  | none => afterAction

/-- One public mutating call on a `Brick`, for reasoning about arbitrary
operation sequences (the read-only members `asObservable`, `select$` and
`snapshot` do not change the instance). -/
inductive Op where
  | setDataOp : SetDataArg → String → Op
  | dispatchOp : String → JSVal → Op
  | registerActionOp : String → (JSVal → JSVal → JSVal) → Op
  | registerSideEffectOp : String → Nat → Op

/-- Performs one operation. -/
def Brick.applyOp (b : Brick) : Op → StepResult
  | .setDataOp arg action => b.setData arg action
  | .dispatchOp action payload => b.dispatch action payload
  | .registerActionOp name reducer => b.registerAction name reducer
  | .registerSideEffectOp name effect => b.registerSideEffect name effect

/-- Runs a sequence of operations (a thrown registration error leaves the
instance unchanged, and the caller may keep using it). -/
def Brick.run (b : Brick) : List Op → Brick
  | [] => b
  | op :: ops => ((b.applyOp op).brick).run ops

/-- The concatenated event trace of a sequence of operations. -/
def Brick.runEvents (b : Brick) : List Op → List Event
  | [] => []
  | op :: ops => (b.applyOp op).events ++ ((b.applyOp op).brick).runEvents ops

/-- The values pushed through `subject.next` in an event trace, in order: what
the `BehaviorSubject` delivers to its subscribers after the initial replay. -/
def streamEmits (events : List Event) : List JSVal :=
  events.filterMap fun e =>
    match e with
    | .streamEmit v => some v
    | _ => none

/-- The full sequence a subscriber who subscribed before `ops` ran observes on
the raw stream (`asObservable` / `select$()` with no selector): the
`BehaviorSubject` replays the current value on subscription, then pushes every
subsequent `next`. -/
def subscriberDelivered (b : Brick) (ops : List Op) : List JSVal :=
  b.subjectValue :: streamEmits (b.runEvents ops)

/-- Helper of `distinctUntilChanged`: `prev` is the last emitted value;
a delivered value is dropped when the comparator relates it to `prev`,
and becomes the new `prev` when emitted. -/
def ducGo (comp : S → S → Bool) (prev : S) : List S → List S
  | [] => []
  | y :: ys => if comp prev y then ducGo comp prev ys else y :: ducGo comp y ys

/-- The rxjs `distinctUntilChanged` operator on a delivered sequence: the
first value is always emitted; afterwards a value is emitted only when the
comparator does not relate the previously *emitted* value to it. -/
def distinctUntilChanged (comp : S → S → Bool) : List S → List S
  | [] => []
  | x :: xs => x :: ducGo comp x xs

/-- Subscriber semantics of `select$(selector, comparator)` (Brick.ts lines
69-72): the delivered sequence piped through `map(selector)` and
`distinctUntilChanged(comparator)`.  When the `comparator` argument is
omitted in the source, rxjs falls back to `===`, i.e. `jsStrictEq` at the
default instantiation `S = T`. -/
def selectObserved (selector : JSVal → S) (comp : S → S → Bool)
    (delivered : List JSVal) : List S :=
  distinctUntilChanged comp (delivered.map selector)

/-- The reducer of the specification's counter scenario:
`(s, p) => ({count: s.count + p})`. -/
def incReducer : JSVal → JSVal → JSVal :=
  fun s p => .vobj [("count", jsAdd (objGet s "count") p)]

/-- A brick holding a counter object with the scenario's `INC` action
registered. -/
def incBrick : Brick :=
  ((Brick.createBrick (.vobj [("count", .vnum 0)])).registerAction
    "INC" incReducer).brick

/-- A brick with only a side effect (identifier `0`) registered under
`FX`. -/
def fxBrick : Brick :=
  ((Brick.createBrick (.vobj [("count", .vnum 0)])).registerSideEffect
    "FX" 0).brick

/-- A brick with both an action and a side effect registered under the same
name `INC`. -/
def bothBrick : Brick :=
  ((incBrick.registerSideEffect "INC" 0)).brick

/-- The brick of the selection scenario, created at the number `1`. -/
def seqBrick : Brick := Brick.createBrick (.vnum 1)

/-- Operations driving the state of `seqBrick` through `1, 2, 2, 1` (via
transformer `setData` calls, since direct primitive arguments are dropped),
so that a pre-existing subscriber is delivered `1, 1, 2, 2, 1`. -/
def seqOps : List Op :=
  [.setDataOp (.transform (fun _ => .vnum 1)) "SET_DATA",
   .setDataOp (.transform (fun _ => .vnum 2)) "SET_DATA",
   .setDataOp (.transform (fun _ => .vnum 2)) "SET_DATA",
   .setDataOp (.transform (fun _ => .vnum 1)) "SET_DATA"]

/-! ## Helper lemmas -/

/-- A lookup that succeeds in `m` succeeds unchanged in `m ++ l`. -/
theorem lookup_append_some {α : Type} {m l : List (String × α)} {k : String}
    {v : α} (h : List.lookup k m = some v) :
    List.lookup k (m ++ l) = some v := by
  induction m with
  | nil => simp [List.lookup] at h
  | cons p m ih =>
    obtain ⟨a, w⟩ := p
    rw [List.cons_append, List.lookup_cons] at *
    split at h
    · exact h
    · exact ih h

/-- On a key the map does not hold, `mapSet` appends the new entry. -/
theorem mapSet_of_not_has {α : Type} {m : List (String × α)} {k : String}
    (h : mapHas m k = false) (v : α) : mapSet m k v = m ++ [(k, v)] := by
  simp [mapSet, h]

/-- The `setData` method never touches the action registry. -/
theorem setData_actions (b : Brick) (arg : SetDataArg) (action : String) :
    (b.setData arg action).brick.actions = b.actions := by
  cases arg with
  | transform f => rfl
  | value v =>
    simp only [Brick.setData]
    split <;> rfl

/-- The `setData` method never touches the side-effect registry. -/
theorem setData_sideEffects (b : Brick) (arg : SetDataArg) (action : String) :
    (b.setData arg action).brick.sideEffects = b.sideEffects := by
  cases arg with
  | transform f => rfl
  | value v =>
    simp only [Brick.setData]
    split <;> rfl

/-- The `dispatch` method never touches the action registry. -/
theorem dispatch_actions (b : Brick) (action : String) (payload : JSVal) :
    (b.dispatch action payload).brick.actions = b.actions := by
  rcases h1 : List.lookup action b.actions with _ | red <;>
    rcases h2 : List.lookup action b.sideEffects with _ | eff <;>
      simp [Brick.dispatch, h1, h2, Brick.setData]

/-- The `dispatch` method never touches the side-effect registry. -/
theorem dispatch_sideEffects (b : Brick) (action : String) (payload : JSVal) :
    (b.dispatch action payload).brick.sideEffects = b.sideEffects := by
  rcases h1 : List.lookup action b.actions with _ | red <;>
    rcases h2 : List.lookup action b.sideEffects with _ | eff <;>
      simp [Brick.dispatch, h1, h2, Brick.setData]

/-- The `registerAction` method preserves every existing action entry. -/
theorem registerAction_lookup (b : Brick) (n : String)
    (f : JSVal → JSVal → JSVal) {name : String} {r : JSVal → JSVal → JSVal}
    (h : List.lookup name b.actions = some r) :
    List.lookup name (b.registerAction n f).brick.actions = some r := by
  simp only [Brick.registerAction]
  rcases hn : mapHas b.actions n with _ | _
  · simp only [Bool.false_eq_true, if_false]
    rw [mapSet_of_not_has hn]
    exact lookup_append_some h
  · simpa using h

/-- The `registerAction` method never touches the side-effect registry. -/
theorem registerAction_sideEffects (b : Brick) (n : String)
    (f : JSVal → JSVal → JSVal) :
    (b.registerAction n f).brick.sideEffects = b.sideEffects := by
  simp only [Brick.registerAction]
  split <;> rfl

/-- The `registerSideEffect` method preserves every existing effect entry. -/
theorem registerSideEffect_lookup (b : Brick) (n : String) (f : Nat)
    {name : String} {e : Nat}
    (h : List.lookup name b.sideEffects = some e) :
    List.lookup name (b.registerSideEffect n f).brick.sideEffects = some e := by
  simp only [Brick.registerSideEffect]
  rcases hn : mapHas b.sideEffects n with _ | _
  · simp only [Bool.false_eq_true, if_false]
    rw [mapSet_of_not_has hn]
    exact lookup_append_some h
  · simpa using h

/-- The `registerSideEffect` method never touches the action registry. -/
theorem registerSideEffect_actions (b : Brick) (n : String) (f : Nat) :
    (b.registerSideEffect n f).brick.actions = b.actions := by
  simp only [Brick.registerSideEffect]
  split <;> rfl

/-- Every single operation preserves every existing action entry. -/
theorem applyOp_actions_lookup (b : Brick) (op : Op) {name : String}
    {r : JSVal → JSVal → JSVal} (h : List.lookup name b.actions = some r) :
    List.lookup name (b.applyOp op).brick.actions = some r := by
  cases op with
  | setDataOp arg action => rw [Brick.applyOp, setData_actions]; exact h
  | dispatchOp action payload => rw [Brick.applyOp, dispatch_actions]; exact h
  | registerActionOp n f => exact registerAction_lookup b n f h
  | registerSideEffectOp n f =>
    rw [Brick.applyOp, registerSideEffect_actions]; exact h

/-- Every single operation preserves every existing side-effect entry. -/
theorem applyOp_sideEffects_lookup (b : Brick) (op : Op) {name : String}
    {e : Nat} (h : List.lookup name b.sideEffects = some e) :
    List.lookup name (b.applyOp op).brick.sideEffects = some e := by
  cases op with
  | setDataOp arg action => rw [Brick.applyOp, setData_sideEffects]; exact h
  | dispatchOp action payload =>
    rw [Brick.applyOp, dispatch_sideEffects]; exact h
  | registerActionOp n f =>
    rw [Brick.applyOp, registerAction_sideEffects]; exact h
  | registerSideEffectOp n f => exact registerSideEffect_lookup b n f h

/-- The output of `ducGo` is a sublist of its input. -/
theorem ducGo_sublist (comp : S → S → Bool) :
    ∀ (l : List S) (p : S), List.Sublist (ducGo comp p l) l
  | [], _ => List.Sublist.slnil
  | y :: ys, p => by
    rw [ducGo]
    by_cases h : comp p y = true
    · simp only [h, if_true]
      exact (ducGo_sublist comp ys p).cons y
    · simp only [h, if_false]
      exact (ducGo_sublist comp ys y).cons₂ y

/-- Suppression only drops values: the emitted sequence is a sublist of the
delivered one. -/
theorem duc_sublist (comp : S → S → Bool) (l : List S) :
    List.Sublist (distinctUntilChanged comp l) l := by
  cases l with
  | nil => exact List.Sublist.slnil
  | cons x xs => exact (ducGo_sublist comp xs x).cons₂ x

/-- No two consecutive values emitted after `prev` (itself included) are
related by the comparator. -/
theorem ducGo_chain (comp : S → S → Bool) :
    ∀ (l : List S) (p : S),
      List.Chain' (fun a c => comp a c = false) (p :: ducGo comp p l)
  | [], p => by simp [ducGo]
  | y :: ys, p => by
    rw [ducGo]
    by_cases h : comp p y = true
    · simp only [h, if_true]
      exact ducGo_chain comp ys p
    · simp only [h, Bool.false_eq_true, if_false]
      rw [List.chain'_cons]
      exact ⟨by simpa using h, ducGo_chain comp ys y⟩

/-- No two consecutive emitted values are related by the comparator. -/
theorem duc_chain (comp : S → S → Bool) (l : List S) :
    List.Chain' (fun a c => comp a c = false) (distinctUntilChanged comp l) := by
  cases l with
  | nil => simp [distinctUntilChanged]
  | cons x xs => exact ducGo_chain comp xs x

/-- Suppression keeps the first delivered value. -/
theorem duc_head (comp : S → S → Bool) (l : List S) :
    (distinctUntilChanged comp l).head? = l.head? := by
  cases l <;> rfl

/-! ## Claims -/

/-- C1, counterexample: the claim quantifies over *every* value `v2`, but
`setData` with a direct value that is not `instanceof Object` falls through
both runtime checks.  At the concrete input: a brick holding the number `42`,
`setData(7)` leaves the snapshot at `42` (not `7`) and produces no stream
notification at all, refuting both conjuncts of the claim. -/
theorem C1_counterexample :
    ((Brick.createBrick (.vnum 42)).setData (.value (.vnum 7))
        "SET_DATA").brick.snapshot ≠ .vnum 7 ∧
    streamEmits ((Brick.createBrick (.vnum 42)).setData (.value (.vnum 7))
        "SET_DATA").events = [] := by
  constructor
  · intro h
    simp [Brick.createBrick, Brick.setData, Brick.snapshot,
      jsInstanceOfObject] at h
  · rfl

/-- C1, amended: for every value `v2` that is `instanceof Object`,
`setData(v2)` installs `v2` as the new current value (the snapshot is `v2`
immediately afterwards) and pushes exactly one stream notification carrying
`v2` to every pre-existing subscriber, even when `v2` equals the previous
value (the brick `b` is arbitrary, so in particular it may already hold
`v2`), and no error is thrown. -/
theorem C1_object_setData (b : Brick) (v2 : JSVal)
    (h : jsInstanceOfObject v2 = true) :
    (b.setData (.value v2) "SET_DATA").brick.snapshot = v2 ∧
    streamEmits (b.setData (.value v2) "SET_DATA").events = [v2] ∧
    (b.setData (.value v2) "SET_DATA").error = none := by
  simp [Brick.setData, h, Brick.snapshot, streamEmits]

/-- C1, witness: the amended claim evaluated on a fresh brick receiving an
object value. -/
theorem C1_witness :
    jsInstanceOfObject (.vobj [("a", .vnum 1)]) = true ∧
    ((Brick.createBrick (.vobj [])).setData (.value (.vobj [("a", .vnum 1)]))
        "SET_DATA").brick.snapshot = .vobj [("a", .vnum 1)] ∧
    streamEmits ((Brick.createBrick (.vobj [])).setData
        (.value (.vobj [("a", .vnum 1)])) "SET_DATA").events =
      [.vobj [("a", .vnum 1)]] := by
  refine ⟨rfl, ?_, ?_⟩
  · exact (C1_object_setData (Brick.createBrick (.vobj []))
      (.vobj [("a", .vnum 1)]) rfl).1
  · exact (C1_object_setData (Brick.createBrick (.vobj []))
      (.vobj [("a", .vnum 1)]) rfl).2.1

/-- C2: when a reducer `r` is registered under `name`, `dispatch(name, p)`
updates the snapshot to `r(s, p)` where `s` is the snapshot before the call;
and the counter scenario: starting from the object `count = 0` with `INC`
registered as the increment reducer, `dispatch("INC", 5)` then
`dispatch("INC", 3)` leaves the snapshot at `count = 5` and then
`count = 8`. -/
theorem C2_dispatch_applies_reducer :
    (∀ (b : Brick) (name : String) (p : JSVal) (r : JSVal → JSVal → JSVal),
        List.lookup name b.actions = some r →
        (b.dispatch name p).brick.snapshot = r b.snapshot p) ∧
    (incBrick.dispatch "INC" (.vnum 5)).brick.snapshot =
        .vobj [("count", .vnum 5)] ∧
    ((incBrick.dispatch "INC" (.vnum 5)).brick.dispatch "INC"
        (.vnum 3)).brick.snapshot = .vobj [("count", .vnum 8)] := by
  refine ⟨?_, rfl, rfl⟩
  intro b name p r h
  rcases h2 : List.lookup name b.sideEffects with _ | eff <;>
    simp [Brick.dispatch, h, h2, Brick.setData, Brick.snapshot]

/-- C2, witness: the universally quantified part of `C2_dispatch_applies_reducer`
evaluated on the counter brick. -/
theorem C2_witness :
    List.lookup "INC" incBrick.actions = some incReducer ∧
    (incBrick.dispatch "INC" (.vnum 5)).brick.snapshot =
      incReducer incBrick.snapshot (.vnum 5) :=
  ⟨rfl, C2_dispatch_applies_reducer.1 incBrick "INC" (.vnum 5) incReducer rfl⟩

/-- C3: when both a reducer and a side effect are registered under the same
name, `dispatch` produces the event sequence: state transition
(`subject.next`), the action's devtool report, the side-effect callback
invocation, the side effect's devtool report — so the state transition and
its devtool report strictly precede the side-effect callback and its own
devtool report. -/
theorem C3_action_before_effect :
    ∀ (b : Brick) (name : String) (p : JSVal) (r : JSVal → JSVal → JSVal)
      (e : Nat),
      List.lookup name b.actions = some r →
      List.lookup name b.sideEffects = some e →
      (b.dispatch name p).events =
        [.streamEmit (r b.snapshot p), .devtoolSend name (r b.snapshot p),
         .effectCall e p, .devtoolSend name (sideEffectRecord p)] := by
  intro b name p r e h1 h2
  simp [Brick.dispatch, h1, h2, Brick.setData, Brick.snapshot]

/-- C3, witness: the ordering evaluated on a brick with an action and a side
effect both registered under `INC`. -/
theorem C3_witness :
    List.lookup "INC" bothBrick.actions = some incReducer ∧
    List.lookup "INC" bothBrick.sideEffects = some 0 ∧
    (bothBrick.dispatch "INC" (.vnum 2)).events =
      [.streamEmit (incReducer bothBrick.snapshot (.vnum 2)),
       .devtoolSend "INC" (incReducer bothBrick.snapshot (.vnum 2)),
       .effectCall 0 (.vnum 2),
       .devtoolSend "INC" (sideEffectRecord (.vnum 2))] :=
  ⟨rfl, rfl,
   C3_action_before_effect bothBrick "INC" (.vnum 2) incReducer 0 rfl rfl⟩

/-- C4: registering a name already present in the corresponding registry
throws a duplicate-name error, the failed call leaves the whole instance
unchanged, and the first registered reducer (respectively effect) remains the
one found by lookup. -/
theorem C4_duplicate_registration :
    ∀ (b : Brick) (name : String) (r r2 : JSVal → JSVal → JSVal) (e : Nat)
      (e2 : Nat),
      (List.lookup name b.actions = some r →
        b.registerAction name r2 =
          ⟨b, [], some ("Action with the name \"" ++ name ++
            "\" is already registered.")⟩ ∧
        List.lookup name (b.registerAction name r2).brick.actions = some r) ∧
      (List.lookup name b.sideEffects = some e →
        b.registerSideEffect name e2 =
          ⟨b, [], some ("Side effect with the name \"" ++ name ++
            "\" is already registered.")⟩ ∧
        List.lookup name (b.registerSideEffect name e2).brick.sideEffects =
          some e) := by
  intro b name r r2 e e2
  constructor
  · intro h
    have hh : mapHas b.actions name = true := by simp [mapHas, h]
    exact ⟨by simp [Brick.registerAction, hh],
      by simp [Brick.registerAction, hh, h]⟩
  · intro h
    have hh : mapHas b.sideEffects name = true := by simp [mapHas, h]
    exact ⟨by simp [Brick.registerSideEffect, hh],
      by simp [Brick.registerSideEffect, hh, h]⟩

/-- C4, witness: duplicate registrations of `INC` on a brick already holding
an `INC` action and an `INC` side effect. -/
theorem C4_witness :
    (bothBrick.registerAction "INC" incReducer).error =
      some ("Action with the name \"" ++ "INC" ++
        "\" is already registered.") ∧
    List.lookup "INC" (bothBrick.registerAction "INC" incReducer).brick.actions
      = some incReducer ∧
    (bothBrick.registerSideEffect "INC" 1).error =
      some ("Side effect with the name \"" ++ "INC" ++
        "\" is already registered.") ∧
    List.lookup "INC"
        (bothBrick.registerSideEffect "INC" 1).brick.sideEffects = some 0 := by
  have h1 :=
    (C4_duplicate_registration bothBrick "INC" incReducer incReducer 0 1).1 rfl
  have h2 :=
    (C4_duplicate_registration bothBrick "INC" incReducer incReducer 0 1).2 rfl
  exact ⟨by rw [h1.1], h1.2, by rw [h2.1], h2.2⟩

/-- C5: dispatching a name registered in neither registry is a silent no-op:
the instance is unchanged, no event (stream notification, devtool send or
callback invocation) is produced, and nothing is thrown. -/
theorem C5_dispatch_unknown_noop :
    ∀ (b : Brick) (name : String) (p : JSVal),
      List.lookup name b.actions = none →
      List.lookup name b.sideEffects = none →
      b.dispatch name p = ⟨b, [], none⟩ := by
  intro b name p h1 h2
  simp [Brick.dispatch, h1, h2]

/-- C5, witness: dispatching the unregistered name `unknown` on the counter
brick. -/
theorem C5_witness :
    incBrick.dispatch "unknown" (.vnum 9) = ⟨incBrick, [], none⟩ :=
  C5_dispatch_unknown_noop incBrick "unknown" (.vnum 9) rfl rfl

/-- C6, counterexample: on a brick with a side effect registered under `FX`,
`dispatch("FX", 7)` invokes the callback and then reports a record whose tag
field is named `type` (Brick.ts line 123), not `kind` as the claim states:
the reported record differs from the claimed one. -/
theorem C6_counterexample :
    (fxBrick.dispatch "FX" (.vnum 7)).events =
      [.effectCall 0 (.vnum 7),
       .devtoolSend "FX"
         (.vobj [("type", .vstr "sideEffect"), ("payload", .vnum 7)])] ∧
    JSVal.vobj [("type", .vstr "sideEffect"), ("payload", .vnum 7)] ≠
      JSVal.vobj [("kind", .vstr "sideEffect"), ("payload", .vnum 7)] := by
  refine ⟨rfl, ?_⟩
  intro h
  simp at h

/-- C6, amended: for every name with a registered side effect and every
payload `p`, `dispatch(name, p)` invokes the effect callback with `p` and then
reports to the devtool adapter a transition labeled `name` whose payload is
the tagged record with field `type` set to the string `sideEffect` and field
`payload` set to `p` (after the action part of the dispatch, when an action is
also registered). -/
theorem C6_effect_dispatch :
    ∀ (b : Brick) (name : String) (p : JSVal) (e : Nat),
      List.lookup name b.sideEffects = some e →
      (b.dispatch name p).events =
        (match List.lookup name b.actions with
         | some r =>
             [Event.streamEmit (r b.snapshot p),
              Event.devtoolSend name (r b.snapshot p)]
         | none => []) ++
        [Event.effectCall e p,
         Event.devtoolSend name
           (.vobj [("type", .vstr "sideEffect"), ("payload", p)])] := by
  intro b name p e h2
  rcases h1 : List.lookup name b.actions with _ | r <;>
    simp [Brick.dispatch, h1, h2, Brick.setData, Brick.snapshot,
      sideEffectRecord]

/-- C6, witness: the amended claim evaluated on the side-effect-only brick. -/
theorem C6_witness :
    List.lookup "FX" fxBrick.sideEffects = some 0 ∧
    (fxBrick.dispatch "FX" (.vnum 7)).events =
      (match List.lookup "FX" fxBrick.actions with
       | some r =>
           [Event.streamEmit (r fxBrick.snapshot (.vnum 7)),
            Event.devtoolSend "FX" (r fxBrick.snapshot (.vnum 7))]
       | none => []) ++
      [Event.effectCall 0 (.vnum 7),
       Event.devtoolSend "FX"
         (.vobj [("type", .vstr "sideEffect"), ("payload", .vnum 7)])] :=
  ⟨rfl, C6_effect_dispatch fxBrick "FX" (.vnum 7) 0 rfl⟩

/-- C7: a subscriber to `select$(selector, comparator)` first receives the
selector applied to the current value, receives only values of the mapped
delivered sequence in order (a sublist), and never receives two consecutive
values related by the comparator (consecutive duplicates are suppressed); on
the state sequence `1, 1, 2, 2, 1` with the identity selector and the default
`===` comparator the observed sequence is `1, 2, 1`. -/
theorem C7_select_distinct :
    (∀ {S : Type} (sel : JSVal → S) (comp : S → S → Bool) (b : Brick)
        (ops : List Op),
      (selectObserved sel comp (subscriberDelivered b ops)).head? =
          some (sel b.snapshot) ∧
      List.Sublist (selectObserved sel comp (subscriberDelivered b ops))
          ((subscriberDelivered b ops).map sel) ∧
      List.Chain' (fun a c => comp a c = false)
          (selectObserved sel comp (subscriberDelivered b ops))) ∧
    subscriberDelivered seqBrick seqOps =
        [.vnum 1, .vnum 1, .vnum 2, .vnum 2, .vnum 1] ∧
    selectObserved (fun v => v) jsStrictEq
        (subscriberDelivered seqBrick seqOps) =
      [.vnum 1, .vnum 2, .vnum 1] := by
  refine ⟨?_, rfl, rfl⟩
  intro S sel comp b ops
  refine ⟨?_, duc_sublist comp _, duc_chain comp _⟩
  rw [selectObserved, duc_head]
  simp [subscriberDelivered, Brick.snapshot]

/-- C8: the registries never shrink: under any sequence of public operations,
a name registered in a registry keeps mapping to the same function. -/
theorem C8_registries_never_shrink :
    ∀ (b : Brick) (ops : List Op) (name : String),
      (∀ r, List.lookup name b.actions = some r →
        List.lookup name (b.run ops).actions = some r) ∧
      (∀ e, List.lookup name b.sideEffects = some e →
        List.lookup name (b.run ops).sideEffects = some e) := by
  intro b ops name
  induction ops generalizing b with
  | nil => exact ⟨fun r h => h, fun e h => h⟩
  | cons op ops ih =>
    simp only [Brick.run]
    constructor
    · intro r h
      exact (ih ((b.applyOp op).brick)).1 r (applyOp_actions_lookup b op h)
    · intro e h
      exact (ih ((b.applyOp op).brick)).2 e (applyOp_sideEffects_lookup b op h)

/-- C8, witness: the `INC` action survives a later registration, a dispatch
and a `setData`. -/
theorem C8_witness :
    List.lookup "INC" bothBrick.actions = some incReducer ∧
    List.lookup "INC"
        (bothBrick.run [.registerActionOp "OTHER" incReducer,
          .dispatchOp "INC" (.vnum 1),
          .setDataOp (.value (.vobj [])) "SET_DATA"]).actions =
      some incReducer :=
  ⟨rfl,
   (C8_registries_never_shrink bothBrick
     [.registerActionOp "OTHER" incReducer, .dispatchOp "INC" (.vnum 1),
      .setDataOp (.value (.vobj [])) "SET_DATA"] "INC").1 incReducer rfl⟩

/-- C9: the silent no-op of `setData` applies only to the direct-value form:
for every value `p` that is not `instanceof Object`, `setData(p)` leaves the
instance unchanged and produces no event, while `setData` of a transformer
returning that same `p` installs `p` as the snapshot and notifies subscribers
(one stream notification carrying `p`) — the transformer branch performs no
shape check on its result. -/
theorem C9_primitive_setData :
    ∀ (b : Brick) (p : JSVal) (label : String),
      jsInstanceOfObject p = false →
      b.setData (.value p) label = ⟨b, [], none⟩ ∧
      (b.setData (.transform (fun _ => p)) label).brick.snapshot = p ∧
      streamEmits (b.setData (.transform (fun _ => p)) label).events = [p] := by
  intro b p label h
  exact ⟨by simp [Brick.setData, h], rfl, rfl⟩

/-- C9, witness: the number `5` dropped by direct `setData` but installed by a
transformer returning it. -/
theorem C9_witness :
    jsInstanceOfObject (.vnum 5) = false ∧
    seqBrick.setData (.value (.vnum 5)) "SET_DATA" = ⟨seqBrick, [], none⟩ ∧
    (seqBrick.setData (.transform (fun _ => .vnum 5))
        "SET_DATA").brick.snapshot = .vnum 5 :=
  ⟨rfl, (C9_primitive_setData seqBrick (.vnum 5) "SET_DATA" rfl).1,
   (C9_primitive_setData seqBrick (.vnum 5) "SET_DATA" rfl).2.1⟩

/-- C10: `registerAction` and `registerSideEffect` modify only their own
registry: whether they succeed or throw, the subject value is unchanged, the
other registry is unchanged, and no event at all (stream notification,
devtool send or callback invocation) is produced. -/
theorem C10_register_frame :
    ∀ (b : Brick) (name : String) (r : JSVal → JSVal → JSVal) (e : Nat),
      (b.registerAction name r).brick.subjectValue = b.subjectValue ∧
      (b.registerAction name r).brick.sideEffects = b.sideEffects ∧
      (b.registerAction name r).events = [] ∧
      (b.registerSideEffect name e).brick.subjectValue = b.subjectValue ∧
      (b.registerSideEffect name e).brick.actions = b.actions ∧
      (b.registerSideEffect name e).events = [] := by
  intro b name r e
  refine ⟨?_, ?_, ?_, ?_, ?_, ?_⟩ <;>
    first
    | (simp only [Brick.registerAction]; split <;> rfl)
    | (simp only [Brick.registerSideEffect]; split <;> rfl)
